import Mathlib

/-!
Verification of the conversational session logic of the BoardAiMovil chat
client.  The embedded code lives in:

* `src/frontend/screens/ChatbotScreen.tsx` — the session controller: it owns
  the transcript (`messages`), the active document slot (`currentPDF`), the
  connectivity flag (`isServerConnected`) and the pending flag (`isLoading`),
  and it routes each user submission to one remote call.
* `src/frontend/services/apiBilly.ts` — the remote-assistant client: request
  construction (`sendMessage`, `clearHistory`) and the health probe
  (`checkHealth`).

Modelling conventions.  The screen is single-threaded and disables the input
while a request is pending (`editable={!isLoading && !uploadingPDF}`, the send
button is `disabled` likewise), so a user-visible step is one handler run to
completion: each event below carries the outcome of the one awaited
`apiBilly` call (`ApiOutcome.ok resp` for a resolved promise, `ApiOutcome.err
m` for a rejected one whose classified message is `m`), and `step` returns the
post-`finally` state together with the list of remote calls the handler
dispatched.  JavaScript truthiness tests on optional fields
(`response.response`, `response.analysis`, `response.pages || 'N/A'`) are
embedded by `strTruthy` / `natTruthy` (missing, empty string and zero are
falsy).  Message ids and timestamps do not influence any transition, so the
machine's `ChatMessage` keeps only `text`, `isBot` and `type`; the id
expressions themselves (`Date.now() + Math.random()`, and `Date.now()` alone
for the greeting messages) are embedded separately over `ℚ` as
`addMessageId` / `greetingMessageId`.  `size_kb` (a JS number) is embedded as
`Nat`; no claim depends on fractional sizes.
-/

/-- Message kinds, from `ChatMessage.type` in `src/frontend/types/chat.ts`
(`'text' | 'search' | 'pdf' | 'citation' | 'error' | 'pdf_upload' |
'pdf_analysis'`).  `ChatbotScreen` itself never produces `search` or
`citation`. -/
inductive MsgType
  | text
  | search
  | pdf
  | citation
  | error
  | pdf_upload
  | pdf_analysis
  deriving DecidableEq, Repr

/-- A transcript entry (`ChatMessage` in `src/frontend/types/chat.ts`),
projected to the fields that drive the session logic; `id` and `timestamp`
are modelled separately (`addMessageId`, `greetingMessageId`), `data` is
never read by the screen. -/
structure ChatMessage where
  text : String
  isBot : Bool
  type : MsgType
  deriving DecidableEq, Repr

/-- The fields of `ApiResponse` (src/frontend/services/apiBilly.ts) that the
screen reads.  Optional fields are `Option`; a missing field is `none`. -/
structure ApiResponse where
  success : Bool
  response : Option String
  analysis : Option String
  preview : Option String
  pages : Option Nat
  size_kb : Option Nat
  deriving DecidableEq, Repr

/-- The `currentPDF` state record of `ChatbotScreen` (lines 48-54). -/
structure CurrentPDF where
  name : String
  analysis : Option String
  preview : Option String
  pages : Option Nat
  size_kb : Option Nat
  deriving DecidableEq, Repr

/-- The `/chat` request body (`ChatRequest` in apiBilly.ts). -/
structure ChatRequest where
  message : String
  user_id : String
  clear_history : Bool
  deriving DecidableEq, Repr

/-- The `/clear-history` request body (`ClearHistoryRequest` in apiBilly.ts). -/
structure ClearHistoryRequest where
  user_id : String
  deriving DecidableEq, Repr

/-- Outcome of one awaited `apiBilly` call as observed by the screen: the
promise resolved with an `ApiResponse`, or it rejected with an `Error` whose
(classified) message is the given string. -/
inductive ApiOutcome
  | ok (resp : ApiResponse)
  | err (message : String)
  deriving DecidableEq, Repr

/-- JS `String.prototype.trim`, embedded structurally over the character
list (Lean's own `String.trim` is defined by well-founded recursion on byte
positions and does not reduce inside the kernel). -/
def jsTrim (s : String) : String :=
  String.mk (((s.data.dropWhile Char.isWhitespace).reverse.dropWhile Char.isWhitespace).reverse)

/-- JS truthiness of an optional string field: `undefined` and `""` are
falsy. -/
def strTruthy : Option String → Bool
  | none => false
  | some s => !(s == "")

/-- JS truthiness of an optional numeric field: `undefined` and `0` are
falsy. -/
def natTruthy : Option Nat → Bool
  | none => false
  | some n => !(n == 0)

/-- The default value of the `userId` parameter of `apiBilly.sendMessage` and
`apiBilly.clearHistory` (`userId: string = 'default'`). -/
def defaultUserId : String := "default"

/-- Request built by `apiBilly.sendMessage` (apiBilly.ts lines 116-129):
`{ message, user_id: userId, clear_history: false }`. -/
def sendMessageRequest (message userId : String) : ChatRequest :=
  { message := message, user_id := userId, clear_history := false }

/-- Request built by `apiBilly.clearHistory` (apiBilly.ts lines 303-314):
`{ user_id: userId }`. -/
def clearHistoryRequest (userId : String) : ClearHistoryRequest :=
  { user_id := userId }

/-- The remote calls the screen can dispatch through `apiBilly`. -/
inductive Call
  | checkHealth
  | chat (req : ChatRequest)
  | askPDF (question : String)
  | uploadPDF (fileUri fileName : String)
  | clearHistory (req : ClearHistoryRequest)
  deriving DecidableEq, Repr

/-- The screen state owned by `ChatbotScreen`: transcript, active document
slot, connectivity flag (`null` before the probe completes) and the pending
flag.  (`inputText` is carried by the submit event, `uploadingPDF` is set and
cleared inside `pickPDF`'s `finally` and is false at every event boundary.) -/
structure ScreenState where
  messages : List ChatMessage
  currentPDF : Option CurrentPDF
  isServerConnected : Option Bool
  isLoading : Bool
  deriving DecidableEq, Repr

/-- `addMessage` (ChatbotScreen.tsx lines 86-101), projected to the fields the
session logic reads: appends one message to the transcript. -/
def addMessage (s : ScreenState) (text : String) (isBot : Bool)
    (type : MsgType) : ScreenState :=
  { s with messages := s.messages ++ [{ text := text, isBot := isBot, type := type }] }

/-- The initial greeting message (ChatbotScreen.tsx lines 32-44). -/
def initialGreeting : ChatMessage :=
  { text := "¡Hola! Soy Billy, tu asistente de investigación académica. Puedo ayudarte a:\n\n📄 **Analizar PDFs** - Sube cualquier paper académico\n💬 **Chat académico** - Responde preguntas sobre investigación\n📚 **Explicar conceptos** - De cualquier área del conocimiento\n\n¿En qué puedo ayudarte hoy?"
    isBot := true
    type := MsgType.text }

/-- The greeting installed by `clearChat` (ChatbotScreen.tsx lines 342-351). -/
def resetGreeting : ChatMessage :=
  { text := "¡Hola! Soy Billy, tu asistente de investigación académica. La conversación ha sido reiniciada.\n\n📄 Puedes subir PDFs usando el botón de abajo."
    isBot := true
    type := MsgType.text }

/-- Initial screen state: one greeting, no document, connectivity unknown. -/
def initialState : ScreenState :=
  { messages := [initialGreeting]
    currentPDF := none
    isServerConnected := none
    isLoading := false }

/-- Local guidance appended by `handleNormalChat` when the server is known
disconnected (ChatbotScreen.tsx line 126). -/
def chatGuidance : String :=
  "Estoy procesando tu consulta académica. Para analizar PDFs, asegúrate de que el servidor esté corriendo."

/-- Local guidance appended by `handlePDFQuestion` when the server is known
disconnected (ChatbotScreen.tsx line 149). -/
def pdfGuidance : String :=
  "Para analizar PDFs, necesito conectarme al servidor. Asegúrate de que esté corriendo."

/-- Error text for a successful `/chat` response without a usable reply
(ChatbotScreen.tsx line 135). -/
def noValidResponse : String := "No recibí una respuesta válida del servidor."

/-- `checkServerConnection` (ChatbotScreen.tsx lines 70-84): dispatches the
health probe, records its boolean result and appends a status message.  The
`catch` branch is unreachable because `checkHealth` never rejects (see
`checkHealth` below). -/
def checkServerConnection (s : ScreenState) (connected : Bool) :
    ScreenState × List Call :=
  let s1 : ScreenState := { s with isServerConnected := some connected }
  if connected then
    (addMessage s1 "✅ Servidor conectado. ¡Puedes subir PDFs y usar todas las funcionalidades!" true MsgType.text,
     [Call.checkHealth])
  else
    (addMessage s1 "⚠️ Servidor no disponible. Para analizar PDFs, asegúrate de que el servidor esté corriendo." true MsgType.text,
     [Call.checkHealth])

/-- `handleNormalChat` (ChatbotScreen.tsx lines 124-140): short-circuits with
local guidance when the server is known disconnected, otherwise dispatches
`apiBilly.sendMessage(message)` (so `userId` defaults to `"default"`) and
appends the reply, the no-valid-response error, or the classified error. -/
def handleNormalChat (s : ScreenState) (message : String) (o : ApiOutcome) :
    ScreenState × List Call :=
  if s.isServerConnected = some false then
    (addMessage s chatGuidance true MsgType.text, [])
  else
    match o with
    | ApiOutcome.ok resp =>
        if resp.success && strTruthy resp.response then
          (addMessage s (resp.response.getD "") true MsgType.text,
           [Call.chat (sendMessageRequest message defaultUserId)])
        else
          (addMessage s noValidResponse true MsgType.error,
           [Call.chat (sendMessageRequest message defaultUserId)])
    | ApiOutcome.err m =>
        (addMessage s ("Error: " ++ m) true MsgType.error,
         [Call.chat (sendMessageRequest message defaultUserId)])

/-- `handlePDFQuestion` (ChatbotScreen.tsx lines 142-166): guards on a loaded
document and on connectivity, appends the progress notice, dispatches
`apiBilly.askPDF(question)` and appends the answer or an error. -/
def handlePDFQuestion (s : ScreenState) (question : String) (o : ApiOutcome) :
    ScreenState × List Call :=
  match s.currentPDF with
  | none =>
      (addMessage s "Primero debes subir un PDF para hacer preguntas sobre él." true MsgType.text, [])
  | some _ =>
      if s.isServerConnected = some false then
        (addMessage s pdfGuidance true MsgType.text, [])
      else
        let s1 := addMessage s ("🤔 Preguntando sobre el PDF: \"" ++ question ++ "\"...") true MsgType.pdf_upload
        match o with
        | ApiOutcome.ok resp =>
            if resp.success && strTruthy resp.response then
              (addMessage s1 ("📄 **Respuesta basada en el PDF:**\n\n" ++ resp.response.getD "") true MsgType.pdf_analysis,
               [Call.askPDF question])
            else
              (addMessage s1 "No pude analizar el PDF. Asegúrate de que esté bien formateado." true MsgType.error,
               [Call.askPDF question])
        | ApiOutcome.err m =>
            (addMessage s1 ("Error analizando PDF: " ++ m) true MsgType.error,
             [Call.askPDF question])

/-- The message a submission appends for the user (ChatbotScreen.tsx line
107: `addMessage(userMessage, false)`). -/
def userMsg (text : String) : ChatMessage :=
  { text := text, isBot := false, type := MsgType.text }

/-- `sendMessage` (ChatbotScreen.tsx lines 103-122): rejects blank input
silently, appends the user message, routes on `currentPDF`, and clears
`isLoading` in `finally`.  The outer `catch` is unreachable: both handlers
catch internally and the state setters do not throw. -/
def sendMessageScreen (s : ScreenState) (inputText : String) (o : ApiOutcome) :
    ScreenState × List Call :=
  if jsTrim inputText = "" then (s, [])
  else
    let s1 := addMessage s inputText false MsgType.text
    let r :=
      match s1.currentPDF with
      | some _ => handlePDFQuestion s1 inputText o
      | none => handleNormalChat s1 inputText o
    ({ r.1 with isLoading := false }, r.2)

/-- The progress notice `uploadPDF` appends before the call
(ChatbotScreen.tsx line 250). -/
def uploadingMsg (fileName : String) : ChatMessage :=
  { text := "📤 Subiendo PDF: " ++ fileName ++ "...", isBot := true, type := MsgType.pdf_upload }

/-- The `currentPDF` record installed on a successful upload
(ChatbotScreen.tsx lines 255-261). -/
def pdfFromResponse (fileName : String) (resp : ApiResponse) : CurrentPDF :=
  { name := fileName
    analysis := resp.analysis
    preview := resp.preview
    pages := resp.pages
    size_kb := resp.size_kb }

/-- The upload-success summary text (ChatbotScreen.tsx lines 263-271); `0`
pages or size renders `N/A` because the source uses JS truthiness
(`response.pages || 'N/A'`). -/
def pdfSuccessText (fileName : String) (resp : ApiResponse) : String :=
  "✅ **PDF subido exitosamente!**\n\n📄 **Archivo:** " ++ fileName ++
  "\n📑 **Páginas:** " ++ (if natTruthy resp.pages then toString (resp.pages.getD 0) else "N/A") ++
  "\n📊 **Tamaño:** " ++ (if natTruthy resp.size_kb then toString (resp.size_kb.getD 0) ++ " KB" else "N/A") ++
  "\n\n💡 Ahora puedes hacer preguntas sobre este documento."

/-- `uploadPDF` (ChatbotScreen.tsx lines 240-283): when the server is known
disconnected only an alert is shown (no message, no call); otherwise the
progress notice is appended, the upload is dispatched, and on `success` the
document slot is replaced and the summary (plus the analysis message when the
analysis field is truthy) is appended, while on `success=false` or a rejected
promise one error message is appended and the slot is untouched. -/
def uploadPDFScreen (s : ScreenState) (fileUri fileName : String)
    (o : ApiOutcome) : ScreenState × List Call :=
  if s.isServerConnected = some false then (s, [])
  else
    let s1 := addMessage s ("📤 Subiendo PDF: " ++ fileName ++ "...") true MsgType.pdf_upload
    match o with
    | ApiOutcome.ok resp =>
        if resp.success then
          let s2 := { s1 with currentPDF := some (pdfFromResponse fileName resp) }
          let s3 := addMessage s2 (pdfSuccessText fileName resp) true MsgType.pdf
          if strTruthy resp.analysis then
            (addMessage s3 ("📋 **Análisis inicial del PDF:**\n\n" ++ resp.analysis.getD "") true MsgType.pdf_analysis,
             [Call.uploadPDF fileUri fileName])
          else
            (s3, [Call.uploadPDF fileUri fileName])
        else
          (addMessage s1 "Error al subir el PDF. Intenta con otro archivo." true MsgType.error,
           [Call.uploadPDF fileUri fileName])
    | ApiOutcome.err m =>
        (addMessage s1 ("Error subiendo PDF: " ++ m) true MsgType.error,
         [Call.uploadPDF fileUri fileName])

/-- `clearPDF` (ChatbotScreen.tsx lines 285-305): with a document loaded, the
confirmed action clears the slot and appends a notice (no remote call); the
cancel action does nothing; with no document a notice is appended. -/
def clearPDFScreen (s : ScreenState) (confirmed : Bool) :
    ScreenState × List Call :=
  match s.currentPDF with
  | some _ =>
      if confirmed then
        (addMessage { s with currentPDF := none }
          "📄 PDF eliminado. Puedes subir otro documento cuando quieras." true MsgType.text, [])
      else (s, [])
  | none =>
      (addMessage s "No hay PDF cargado actualmente." true MsgType.text, [])

/-- `clearChat`'s confirmed action (ChatbotScreen.tsx lines 335-353):
dispatches `apiBilly.clearHistory()` (so `userId` defaults to `"default"`)
inside `try { ... } catch {}` — the outcome is ignored — then resets the
transcript to the single reset greeting and clears the document slot. -/
def clearChatScreen (s : ScreenState) (confirmed : Bool) (_o : ApiOutcome) :
    ScreenState × List Call :=
  if confirmed then
    ({ s with messages := [resetGreeting], currentPDF := none },
     [Call.clearHistory (clearHistoryRequest defaultUserId)])
  else (s, [])

/-- The externally triggered events of the screen, each carrying the data the
environment supplies (the submitted text, the file picked, the confirmation
button pressed, the awaited call's outcome, the probe's boolean). -/
inductive Event
  | submit (text : String) (o : ApiOutcome)
  | upload (fileUri fileName : String) (o : ApiOutcome)
  | clearPDF (confirmed : Bool)
  | clearChat (confirmed : Bool) (o : ApiOutcome)
  | health (connected : Bool)
  deriving DecidableEq, Repr

/-- One serialized screen step: the new state and the remote calls
dispatched while handling the event. -/
def step (s : ScreenState) : Event → ScreenState × List Call
  | Event.submit text o => sendMessageScreen s text o
  | Event.upload uri name o => uploadPDFScreen s uri name o
  | Event.clearPDF c => clearPDFScreen s c
  | Event.clearChat c o => clearChatScreen s c o
  | Event.health b => checkServerConnection s b

/-- Run a sequence of events from a state. -/
def run (s : ScreenState) : List Event → ScreenState
  | [] => s
  | e :: es => run (step s e).1 es

/-- All remote calls dispatched along a sequence of events. -/
def runCalls (s : ScreenState) : List Event → List Call
  | [] => []
  | e :: es => (step s e).2 ++ runCalls (step s e).1 es

/-- Transport outcome of the `/health` request as seen inside
`apiBilly.checkHealth`: a resolved response whose body carries the optional
`status` field, or a rejection (network error, timeout, non-2xx — axios
rejects all of these). -/
inductive HealthOutcome
  | ok (status : Option String)
  | failure (err : String)
  deriving DecidableEq, Repr

/-- `apiBilly.checkHealth` (apiBilly.ts lines 98-113) as a function of the
transport outcome: `response.data.status === 'healthy'` on resolution, and
`false` from the `catch` on any rejection.  Totality of this function is the
never-raises part of the contract. -/
def checkHealth : HealthOutcome → Bool
  | HealthOutcome.ok status => status == some "healthy"
  | HealthOutcome.failure _ => false

/-- The message id computed by `addMessage` (ChatbotScreen.tsx line 93):
`Date.now() + Math.random()`, embedded over `ℚ` with `now` the clock value in
milliseconds and `rand` the `Math.random()` draw in `[0, 1)`. -/
def addMessageId (now rand : ℚ) : ℚ := now + rand

/-- The id of the greeting messages (ChatbotScreen.tsx lines 34 and 344):
`Date.now()` alone, no random suffix. -/
def greetingMessageId (now : ℚ) : ℚ := now

/-- The ids of a transcript: the greeting created at `t0` followed by one
`addMessage` id per `(now, rand)` draw. -/
def transcriptIds (t0 : ℚ) (draws : List (ℚ × ℚ)) : List ℚ :=
  greetingMessageId t0 :: draws.map (fun d => addMessageId d.1 d.2)

/-! Concrete responses, states and traces used by the witnesses and
counterexamples below. -/

/-- A successful upload response with no analysis text. -/
def uploadOkResponse : ApiResponse :=
  { success := true, response := none, analysis := none, preview := none,
    pages := some 3, size_kb := some 100 }

/-- A trace where the upload succeeds while the health probe is still pending
(`isServerConnected` is still `null`, so the upload proceeds) and the probe
then reports the server unreachable. -/
def c1Trace : List Event :=
  [Event.upload "file://a" "paper.pdf" (ApiOutcome.ok uploadOkResponse), Event.health false]

/-- A connected state with an active document. -/
def pdfStateW : ScreenState :=
  { messages := [initialGreeting]
    currentPDF := some { name := "paper.pdf", analysis := none, preview := none, pages := none, size_kb := none }
    isServerConnected := some true
    isLoading := false }

/-- A trace reaching a connected state with an active document: probe
succeeds, then an upload succeeds. -/
def c2Trace : List Event :=
  [Event.health true, Event.upload "file://a" "paper.pdf" (ApiOutcome.ok uploadOkResponse)]

/-- A successful upload response carrying an initial analysis. -/
def c3Resp : ApiResponse :=
  { success := true, response := none, analysis := some "Summary...",
    preview := none, pages := some 12, size_kb := some 340 }

/-- A successful chat response with a non-empty reply. -/
def c4Resp : ApiResponse :=
  { success := true, response := some "Attention is...", analysis := none,
    preview := none, pages := none, size_kb := none }

/-- The state after the probe reports the server unreachable. -/
def c5State : ScreenState := run initialState [Event.health false]

/-- Per-call property of Claim C10: requests carrying a user identifier carry
the defaulted one, and chat requests carry `clear_history = false`. -/
def callOk : Call → Prop
  | Call.chat req => req.user_id = defaultUserId ∧ req.clear_history = false
  | Call.clearHistory req => req.user_id = defaultUserId
  | _ => True

/-- A trace dispatching one chat call and one clear-history call. -/
def c10Trace : List Event :=
  [Event.submit "hola" (ApiOutcome.err "x"), Event.clearChat true (ApiOutcome.err "y")]

/-! Helper lemmas about the state projections of `addMessage`. -/

@[simp] theorem addMessage_currentPDF (s : ScreenState) (t : String) (b : Bool) (ty : MsgType) :
    (addMessage s t b ty).currentPDF = s.currentPDF := rfl

@[simp] theorem addMessage_isServerConnected (s : ScreenState) (t : String) (b : Bool) (ty : MsgType) :
    (addMessage s t b ty).isServerConnected = s.isServerConnected := rfl

@[simp] theorem addMessage_isLoading (s : ScreenState) (t : String) (b : Bool) (ty : MsgType) :
    (addMessage s t b ty).isLoading = s.isLoading := rfl

@[simp] theorem addMessage_messages (s : ScreenState) (t : String) (b : Bool) (ty : MsgType) :
    (addMessage s t b ty).messages = s.messages ++ [{ text := t, isBot := b, type := ty }] := rfl

/-- Claim C1 (amended): with a document active, a non-blank submission never
dispatches a `/chat` call; it dispatches `askPDF` with the submitted text when
the connectivity flag is not known-false, and dispatches nothing when the flag
is known-false; with no document active and the flag not known-false it
dispatches exactly the defaulted `/chat` call (and nothing when known-false). -/
theorem c1_routing (s : ScreenState) (text : String) (o : ApiOutcome)
    (hb : ¬ jsTrim text = "") :
    (∀ d, s.currentPDF = some d →
        (∀ req, Call.chat req ∉ (step s (Event.submit text o)).2) ∧
        (¬ s.isServerConnected = some false →
            (step s (Event.submit text o)).2 = [Call.askPDF text]) ∧
        (s.isServerConnected = some false → (step s (Event.submit text o)).2 = []))
    ∧ (s.currentPDF = none →
        (¬ s.isServerConnected = some false →
            (step s (Event.submit text o)).2 =
              [Call.chat (sendMessageRequest text defaultUserId)]) ∧
        (s.isServerConnected = some false →
            (step s (Event.submit text o)).2 = [])) := by
  constructor
  · intro d hd
    refine ⟨?_, ?_, ?_⟩
    · intro req
      by_cases hc : s.isServerConnected = some false <;>
        cases o with
        | ok resp =>
            by_cases hr : (resp.success && strTruthy resp.response) = true <;>
              simp [step, sendMessageScreen, handlePDFQuestion, hb, hd, hc, hr]
        | err m => simp [step, sendMessageScreen, handlePDFQuestion, hb, hd, hc]
    · intro hc
      cases o with
      | ok resp =>
          by_cases hr : (resp.success && strTruthy resp.response) = true <;>
            simp [step, sendMessageScreen, handlePDFQuestion, hb, hd, hc, hr]
      | err m => simp [step, sendMessageScreen, handlePDFQuestion, hb, hd, hc]
    · intro hc
      simp [step, sendMessageScreen, handlePDFQuestion, hb, hd, hc]
  · intro hn
    constructor
    · intro hc
      cases o with
      | ok resp =>
          by_cases hr : (resp.success && strTruthy resp.response) = true <;>
            simp [step, sendMessageScreen, handleNormalChat, hb, hn, hc, hr]
      | err m => simp [step, sendMessageScreen, handleNormalChat, hb, hn, hc]
    · intro hc
      simp [step, sendMessageScreen, handleNormalChat, hb, hn, hc]

/-- Witness for `c1_routing` at a concrete state with an active document. -/
theorem c1_routing_witness :
    ¬ jsTrim "q" = "" ∧
    (step pdfStateW (Event.submit "q" (ApiOutcome.err "e"))).2 = [Call.askPDF "q"] := by
  refine ⟨by decide, ?_⟩
  exact ((c1_routing pdfStateW "q" (ApiOutcome.err "e") (by decide)).1 _ rfl).2.1 (by decide)

/-- Claim C1 fails as stated: in the trace where the upload succeeds while the
probe is still pending and the probe then reports the server unreachable, the
next non-blank submission dispatches no `askPDF` call at all (the handler
short-circuits with local guidance). -/
theorem c1_counterexample :
    (run initialState c1Trace).currentPDF = some (pdfFromResponse "paper.pdf" uploadOkResponse) ∧
    (step (run initialState c1Trace) (Event.submit "hola" (ApiOutcome.err "x"))).2 = [] :=
  ⟨rfl, rfl⟩

/-- Claim C2 (amended): a non-blank submission appends exactly two messages
(the user message plus the terminal assistant/error/guidance message), except
a document question with the connectivity flag not known-false, which appends
three (a progress notice precedes the answer). -/
theorem c2_roundtrip (s : ScreenState) (text : String) (o : ApiOutcome)
    (hb : ¬ jsTrim text = "") :
    (step s (Event.submit text o)).1.messages.length =
      s.messages.length +
        (if s.currentPDF.isSome = true ∧ ¬ s.isServerConnected = some false then 3 else 2) := by
  cases hp : s.currentPDF with
  | none =>
      by_cases hc : s.isServerConnected = some false <;>
        cases o with
        | ok resp =>
            by_cases hr : (resp.success && strTruthy resp.response) = true <;>
              simp [step, sendMessageScreen, handleNormalChat, hb, hp, hc, hr]
        | err m => simp [step, sendMessageScreen, handleNormalChat, hb, hp, hc]
  | some d =>
      by_cases hc : s.isServerConnected = some false <;>
        cases o with
        | ok resp =>
            by_cases hr : (resp.success && strTruthy resp.response) = true <;>
              simp [step, sendMessageScreen, handlePDFQuestion, hb, hp, hc, hr]
        | err m => simp [step, sendMessageScreen, handlePDFQuestion, hb, hp, hc]

/-- Witness for `c2_roundtrip`: a plain-chat round-trip appends two messages. -/
theorem c2_roundtrip_witness :
    ¬ jsTrim "q" = "" ∧
    (step initialState (Event.submit "q" (ApiOutcome.err "e"))).1.messages.length =
      initialState.messages.length + 2 := by
  refine ⟨by decide, ?_⟩
  have h := c2_roundtrip initialState "q" (ApiOutcome.err "e") (by decide)
  simpa using h

/-- Claim C2 fails as stated: after the four messages of the setup trace
(greeting, probe notice, upload progress notice, upload summary), one
completed document-question round-trip grows the transcript by three messages,
not two. -/
theorem c2_counterexample :
    (run initialState c2Trace).messages.length = 4 ∧
    (step (run initialState c2Trace)
        (Event.submit "q" (ApiOutcome.ok
          { success := true, response := some "ans", analysis := none,
            preview := none, pages := none, size_kb := none }))).1.messages.length = 7 :=
  ⟨rfl, rfl⟩

/-- Claim C3: with the upload actually dispatched (flag not known-false), a
`success=true` response replaces the document slot unconditionally with the
record built from the response and appends, after the progress notice, exactly
one `pdf`-kind summary plus one `pdf_analysis`-kind message exactly when the
analysis field is truthy; `success=false` or a rejected promise leaves the
slot untouched and appends, after the progress notice, exactly one error-kind
message (and no `pdf`/`pdf_analysis` message).  The `pdf_upload`-kind
progress notice is appended before the call on every dispatched path and is
not one of the spec's pdf-notice messages (the summary and the analysis). -/
theorem c3_upload (s : ScreenState) (uri fileName : String) (o : ApiOutcome)
    (hs : ¬ s.isServerConnected = some false) :
    (∀ resp, o = ApiOutcome.ok resp → resp.success = true →
        (step s (Event.upload uri fileName o)).1.currentPDF =
            some (pdfFromResponse fileName resp) ∧
        (step s (Event.upload uri fileName o)).1.messages =
          s.messages ++ [uploadingMsg fileName,
            { text := pdfSuccessText fileName resp, isBot := true, type := MsgType.pdf }] ++
          (if strTruthy resp.analysis then
            [{ text := "📋 **Análisis inicial del PDF:**\n\n" ++ resp.analysis.getD "",
               isBot := true, type := MsgType.pdf_analysis }]
           else []))
    ∧ (∀ resp, o = ApiOutcome.ok resp → resp.success = false →
        (step s (Event.upload uri fileName o)).1.currentPDF = s.currentPDF ∧
        (step s (Event.upload uri fileName o)).1.messages =
          s.messages ++ [uploadingMsg fileName,
            { text := "Error al subir el PDF. Intenta con otro archivo.",
              isBot := true, type := MsgType.error }])
    ∧ (∀ m, o = ApiOutcome.err m →
        (step s (Event.upload uri fileName o)).1.currentPDF = s.currentPDF ∧
        (step s (Event.upload uri fileName o)).1.messages =
          s.messages ++ [uploadingMsg fileName,
            { text := "Error subiendo PDF: " ++ m, isBot := true, type := MsgType.error }]) := by
  refine ⟨?_, ?_, ?_⟩
  · rintro resp rfl hsucc
    by_cases ha : strTruthy resp.analysis = true <;>
      simp [step, uploadPDFScreen, uploadingMsg, hs, hsucc, ha]
  · rintro resp rfl hsucc
    simp [step, uploadPDFScreen, uploadingMsg, hs, hsucc]
  · rintro m rfl
    simp [step, uploadPDFScreen, uploadingMsg, hs]

/-- Witness for `c3_upload`: a successful upload from the initial state
installs the document built from the response. -/
theorem c3_upload_witness :
    ¬ initialState.isServerConnected = some false ∧
    (step initialState (Event.upload "file://a" "paper.pdf" (ApiOutcome.ok c3Resp))).1.currentPDF =
      some (pdfFromResponse "paper.pdf" c3Resp) := by
  refine ⟨by decide, ?_⟩
  exact ((c3_upload initialState "file://a" "paper.pdf" (ApiOutcome.ok c3Resp)
    (by decide)).1 c3Resp rfl rfl).1

/-- Claim C4: with no active document and the flag not known-false, the
submission dispatches the chat call and appends, besides the user message,
exactly one plain assistant message carrying the reply on `success` with a
truthy reply; exactly one error-kind no-valid-response message on `success`
with an empty or missing reply; and exactly one error-kind message carrying
the classified error text on a rejected promise; the pending flag is false
afterwards in every case. -/
theorem c4_chat (s : ScreenState) (text : String) (o : ApiOutcome)
    (hb : ¬ jsTrim text = "") (hpdf : s.currentPDF = none)
    (hs : ¬ s.isServerConnected = some false) :
    (step s (Event.submit text o)).1.isLoading = false ∧
    (step s (Event.submit text o)).2 = [Call.chat (sendMessageRequest text defaultUserId)] ∧
    (∀ resp, o = ApiOutcome.ok resp → resp.success = true → strTruthy resp.response = true →
        (step s (Event.submit text o)).1.messages =
          s.messages ++ [userMsg text,
            { text := resp.response.getD "", isBot := true, type := MsgType.text }]) ∧
    (∀ resp, o = ApiOutcome.ok resp → resp.success = true → strTruthy resp.response = false →
        (step s (Event.submit text o)).1.messages =
          s.messages ++ [userMsg text,
            { text := noValidResponse, isBot := true, type := MsgType.error }]) ∧
    (∀ m, o = ApiOutcome.err m →
        (step s (Event.submit text o)).1.messages =
          s.messages ++ [userMsg text,
            { text := "Error: " ++ m, isBot := true, type := MsgType.error }]) := by
  refine ⟨?_, ?_, ?_, ?_, ?_⟩
  · simp [step, sendMessageScreen, hb]
  · cases o with
    | ok resp =>
        by_cases hr : (resp.success && strTruthy resp.response) = true <;>
          simp [step, sendMessageScreen, handleNormalChat, hb, hpdf, hs, hr]
    | err m => simp [step, sendMessageScreen, handleNormalChat, hb, hpdf, hs]
  · rintro resp rfl hsucc hr
    simp [step, sendMessageScreen, handleNormalChat, userMsg, hb, hpdf, hs, hsucc, hr]
  · rintro resp rfl hsucc hr
    simp [step, sendMessageScreen, handleNormalChat, userMsg, hb, hpdf, hs, hsucc, hr]
  · rintro m rfl
    simp [step, sendMessageScreen, handleNormalChat, userMsg, hb, hpdf, hs]

/-- Witness for `c4_chat`: a successful plain-chat round-trip from the initial
state appends the user message and the plain reply. -/
theorem c4_chat_witness :
    ¬ jsTrim "q" = "" ∧ initialState.currentPDF = none ∧
    ¬ initialState.isServerConnected = some false ∧
    (step initialState (Event.submit "q" (ApiOutcome.ok c4Resp))).1.messages =
      initialState.messages ++ [userMsg "q",
        { text := "Attention is...", isBot := true, type := MsgType.text }] := by
  refine ⟨by decide, rfl, by decide, ?_⟩
  exact (c4_chat initialState "q" (ApiOutcome.ok c4Resp) (by decide) rfl
    (by decide)).2.2.1 c4Resp rfl rfl rfl

/-- Claim C5: a non-blank submission while the connectivity flag is
known-false dispatches no remote call at all (in particular no `/chat` call)
and appends, besides the user message, exactly one local guidance message;
the health probe event dispatches its `checkHealth` call in every state,
regardless of the flag. -/
theorem c5_disconnected (s : ScreenState) (text : String) (o : ApiOutcome)
    (hb : ¬ jsTrim text = "") (hs : s.isServerConnected = some false) :
    (step s (Event.submit text o)).2 = [] ∧
    (step s (Event.submit text o)).1.messages =
      s.messages ++ [userMsg text,
        { text := if s.currentPDF.isSome then pdfGuidance else chatGuidance,
          isBot := true, type := MsgType.text }] ∧
    (∀ s2 : ScreenState, ∀ b : Bool, (step s2 (Event.health b)).2 = [Call.checkHealth]) := by
  refine ⟨?_, ?_, ?_⟩
  · cases hp : s.currentPDF <;>
      simp [step, sendMessageScreen, handlePDFQuestion, handleNormalChat, hb, hp, hs]
  · cases hp : s.currentPDF <;>
      simp [step, sendMessageScreen, handlePDFQuestion, handleNormalChat, userMsg, hb, hp, hs]
  · intro s2 b
    cases b <;> simp [step, checkServerConnection]

/-- Witness for `c5_disconnected`: after the probe reports the server
unreachable, a submission dispatches no call. -/
theorem c5_disconnected_witness :
    ¬ jsTrim "q" = "" ∧ c5State.isServerConnected = some false ∧
    (step c5State (Event.submit "q" (ApiOutcome.err "e"))).2 = [] := by
  refine ⟨by decide, rfl, ?_⟩
  exact (c5_disconnected c5State "q" (ApiOutcome.err "e") (by decide) rfl).1

/-- Claim C6: `checkHealth` is a total boolean function of the transport
outcome (it never raises), returning `true` exactly when the health endpoint
resolved with body `status = "healthy"`; any other body and any rejection
(network error, timeout, non-2xx) yields `false`. -/
theorem c6_checkHealth (o : HealthOutcome) :
    checkHealth o = true ↔ o = HealthOutcome.ok (some "healthy") := by
  cases o with
  | ok status => simp [checkHealth]
  | failure e => simp [checkHealth]

/-- Claim C7: the confirmed clear-conversation action dispatches the
best-effort `clearHistory` call and, for every outcome of that call alike
(failure fully swallowed, no error message appended), resets the transcript
to exactly the reset greeting and clears the document slot, leaving the other
fields unchanged. -/
theorem c7_clearChat (s : ScreenState) (o : ApiOutcome) :
    step s (Event.clearChat true o) =
      ({ messages := [resetGreeting], currentPDF := none,
         isServerConnected := s.isServerConnected, isLoading := s.isLoading },
       [Call.clearHistory (clearHistoryRequest defaultUserId)]) := rfl

/-- Claim C8: a blank or whitespace-only submission is a strict no-op: the
whole state (transcript, document slot, pending flag, connectivity flag) is
unchanged and no remote call is dispatched. -/
theorem c8_blank (s : ScreenState) (text : String) (o : ApiOutcome)
    (hb : jsTrim text = "") :
    step s (Event.submit text o) = (s, []) := by
  simp [step, sendMessageScreen, hb]

/-- Witness for `c8_blank` at a whitespace-only input. -/
theorem c8_blank_witness :
    jsTrim "   " = "" ∧
    step initialState (Event.submit "   " (ApiOutcome.err "x")) = (initialState, []) :=
  ⟨by decide, c8_blank initialState "   " (ApiOutcome.err "x") (by decide)⟩

/-- Claim C9 fails as stated: the id scheme does not guarantee distinct ids
for distinct messages.  A greeting created at time 100 collides with a message
whose `addMessage` runs in the same instant with a `Math.random()` draw of 0,
and two `addMessage` calls in the same instant with equal draws collide with
each other. -/
theorem c9_counterexample :
    ¬ (transcriptIds 100 [(100, 0)]).Pairwise Ne ∧
    ¬ (transcriptIds 0 [(100, 1/2), (100, 1/2)]).Pairwise Ne := by
  constructor <;>
    simp [transcriptIds, addMessageId, greetingMessageId, List.pairwise_cons]

/-- Claim C9 (amended): message ids are the timestamp plus the random draw
(the greeting: the timestamp alone); whenever consecutive creation timestamps
are at least one millisecond apart, the ids are pairwise distinct because
each id lies in `[t, t + 1)`; for messages created in the same instant
distinctness is not guaranteed (see the counterexample). -/
theorem c9_ids_distinct (t0 : ℚ) (draws : List (ℚ × ℚ))
    (hr : ∀ d ∈ draws, 0 ≤ d.2 ∧ d.2 < 1)
    (ht : (t0 :: draws.map Prod.fst).Pairwise (fun a b => a + 1 ≤ b)) :
    (transcriptIds t0 draws).Pairwise Ne := by
  have h1 : (transcriptIds t0 draws).Pairwise (fun a b => a < b) := by
    unfold transcriptIds greetingMessageId
    rw [List.pairwise_cons] at ht ⊢
    constructor
    · intro y hy
      rw [List.mem_map] at hy
      obtain ⟨d, hd, rfl⟩ := hy
      have h2 := ht.1 d.1 (List.mem_map_of_mem Prod.fst hd)
      have h3 := (hr d hd).1
      unfold addMessageId
      linarith
    · rw [List.pairwise_map]
      refine List.Pairwise.imp_of_mem ?_ (List.pairwise_map.mp ht.2)
      intro a b ha hb hab
      have h3 := (hr a ha).2
      have h4 := (hr b hb).1
      unfold addMessageId
      linarith
  exact h1.imp (fun hab => ne_of_lt hab)

/-- Witness for `c9_ids_distinct`: three messages created a millisecond or
more apart have pairwise distinct ids. -/
theorem c9_ids_distinct_witness :
    (∀ d ∈ [((101 : ℚ), (1 : ℚ)/2), ((103 : ℚ), 0)], 0 ≤ d.2 ∧ d.2 < 1) ∧
    (((100 : ℚ) :: [((101 : ℚ), (1 : ℚ)/2), ((103 : ℚ), 0)].map Prod.fst).Pairwise
      (fun a b => a + 1 ≤ b)) ∧
    (transcriptIds 100 [(101, 1/2), (103, 0)]).Pairwise Ne := by
  refine ⟨?_, ?_, c9_ids_distinct 100 [(101, 1/2), (103, 0)] ?_ ?_⟩ <;>
    first
      | (intro d hd
         rcases List.mem_cons.mp hd with h | h
         · subst h; norm_num
         · rcases List.mem_cons.mp h with h2 | h2
           · subst h2; norm_num
           · cases h2)
      | (simp [List.pairwise_cons]
         norm_num)

/-- Every list of calls one step dispatches is one of the six shapes the
handlers produce. -/
theorem stepCalls_cases (s : ScreenState) (e : Event) :
    (step s e).2 = [] ∨
    (∃ t, (step s e).2 = [Call.askPDF t]) ∨
    (∃ t, (step s e).2 = [Call.chat (sendMessageRequest t defaultUserId)]) ∨
    (∃ u n, (step s e).2 = [Call.uploadPDF u n]) ∨
    (step s e).2 = [Call.clearHistory (clearHistoryRequest defaultUserId)] ∨
    (step s e).2 = [Call.checkHealth] := by
  cases e with
  | submit text o =>
      by_cases hb : jsTrim text = ""
      · left
        simp [step, sendMessageScreen, hb]
      · cases hp : s.currentPDF with
        | none =>
            by_cases hc : s.isServerConnected = some false
            · left
              simp [step, sendMessageScreen, handleNormalChat, hb, hp, hc]
            · refine Or.inr (Or.inr (Or.inl ⟨text, ?_⟩))
              cases o with
              | ok resp =>
                  by_cases hr : (resp.success && strTruthy resp.response) = true <;>
                    simp [step, sendMessageScreen, handleNormalChat, hb, hp, hc, hr]
              | err m => simp [step, sendMessageScreen, handleNormalChat, hb, hp, hc]
        | some d =>
            by_cases hc : s.isServerConnected = some false
            · left
              simp [step, sendMessageScreen, handlePDFQuestion, hb, hp, hc]
            · refine Or.inr (Or.inl ⟨text, ?_⟩)
              cases o with
              | ok resp =>
                  by_cases hr : (resp.success && strTruthy resp.response) = true <;>
                    simp [step, sendMessageScreen, handlePDFQuestion, hb, hp, hc, hr]
              | err m => simp [step, sendMessageScreen, handlePDFQuestion, hb, hp, hc]
  | upload uri name o =>
      by_cases hc : s.isServerConnected = some false
      · left
        simp [step, uploadPDFScreen, hc]
      · refine Or.inr (Or.inr (Or.inr (Or.inl ⟨uri, name, ?_⟩)))
        cases o with
        | ok resp =>
            by_cases hsucc : resp.success = true
            · by_cases ha : strTruthy resp.analysis = true <;>
                simp [step, uploadPDFScreen, hc, hsucc, ha]
            · simp [step, uploadPDFScreen, hc, hsucc]
        | err m => simp [step, uploadPDFScreen, hc]
  | clearPDF c =>
      left
      cases hp : s.currentPDF with
      | none => simp [step, clearPDFScreen, hp]
      | some d => cases c <;> simp [step, clearPDFScreen, hp]
  | clearChat c o =>
      cases c
      · left
        simp [step, clearChatScreen]
      · refine Or.inr (Or.inr (Or.inr (Or.inr (Or.inl ?_))))
        simp [step, clearChatScreen]
  | health b =>
      refine Or.inr (Or.inr (Or.inr (Or.inr (Or.inr ?_))))
      cases b <;> simp [step, checkServerConnection]

/-- Claim C10: along every event sequence, every dispatched `/chat` request
carries `user_id = "default"` and `clear_history = false`, and every
dispatched `/clear-history` request carries `user_id = "default"` — the
screen never passes a `userId`, so the client's defaulted parameter is used
on every call. -/
theorem c10_defaults (s : ScreenState) (es : List Event) :
    ∀ c ∈ runCalls s es, callOk c := by
  induction es generalizing s with
  | nil => intro c hc; simp [runCalls] at hc
  | cons e es ih =>
      intro c hc
      rw [runCalls, List.mem_append] at hc
      rcases hc with h | h
      · rcases stepCalls_cases s e with h0 | ⟨t, h0⟩ | ⟨t, h0⟩ | ⟨u, n, h0⟩ | h0 | h0 <;>
          rw [h0] at h <;>
          simp only [List.mem_singleton, List.not_mem_nil] at h <;>
          subst h <;>
          simp [callOk, sendMessageRequest, clearHistoryRequest]
      · exact ih _ c h

/-- Witness for `c10_defaults`: the chat and clear-history calls of a concrete
trace both carry the defaulted identifier. -/
theorem c10_defaults_witness :
    Call.chat (sendMessageRequest "hola" defaultUserId) ∈ runCalls initialState c10Trace ∧
    Call.clearHistory (clearHistoryRequest defaultUserId) ∈ runCalls initialState c10Trace ∧
    callOk (Call.chat (sendMessageRequest "hola" defaultUserId)) ∧
    callOk (Call.clearHistory (clearHistoryRequest defaultUserId)) :=
  ⟨by decide, by decide,
   c10_defaults initialState c10Trace _ (by decide),
   c10_defaults initialState c10Trace _ (by decide)⟩
